import Mathlib

/-!
Shallow embedding of `src/src/stores/audioStore.ts`: a browser audio-graph
singleton that lazily builds one AudioContext, three AnalyserNodes
(main / left / right), one ChannelSplitterNode, three reusable Uint8Array
snapshot buffers, and a registry of already-connected media elements.

The module state (all module-level `let` bindings plus the nanostores atom
`isAudioContextReady`) is made explicit as `AudioState`, and each exported
function becomes a pure state-passing function.  Host-runtime behaviour that
the module merely consumes (presence of `window`, presence of an
AudioContext constructor, the frequency spectrum the runtime writes into a
buffer on `getByteFrequencyData`) is an `Env` parameter.  DOM media elements
are part of the state (`elements`), since the module mutates their
`crossOrigin` and `onplay` properties and the runtime records whether a
MediaElementSource was already created for them (a one-time-only operation;
a second attempt throws, which is the failure the `try/catch` guards).

Instrumentation fields (`contextsCreated`, `analysersCreated`,
`splittersCreated`, `sourcesCreated`, `connections`, `resumeRequests`,
`log`) record the side effects the source performs on the host runtime and
console, so that claims about "exactly one context", "no new connections",
"a warning is logged" and "no resumption request is issued" are statable.
-/

/-- identity of a DOM media element, abstracted to a number. -/
abbrev ElemId := Nat

/-- an `onplay` handler installed on a media element: either some handler
installed by code outside this module, or the closure this module installs
on successful connection (which logs and calls `resumeAudioContext`). -/
inductive Handler where
  | external (n : Nat)
  | resumeOnPlay (e : ElemId)
deriving DecidableEq, Repr

/-- observable state of a DOM media element, as far as this module reads or
writes it: the `crossOrigin` attribute, whether the host runtime has already
created a MediaElementSource for it (one-time-only), and its `onplay`
property. -/
structure MediaElement where
  crossOrigin : Option String
  hasMediaSource : Bool
  onplay : Option Handler
deriving DecidableEq, Repr

/-- runtime-reported state of the AudioContext. -/
inductive CtxState where
  | running
  | suspended
deriving DecidableEq, Repr

/-- an AnalyserNode as configured by this module: `fftSize` and
`smoothingTimeConstant`.  `frequencyBinCount` is derived (half the window). -/
structure Analyser where
  fftSize : Nat
  smoothingTimeConstant : ℚ
deriving DecidableEq, Repr

/-- the AnalyserNode property `frequencyBinCount = fftSize / 2`. -/
def Analyser.frequencyBinCount (a : Analyser) : Nat := a.fftSize / 2

/-- console log severity. -/
inductive LogLevel where
  | info
  | warn
  | error
deriving DecidableEq, Repr

/-- one console line emitted by the module. -/
structure LogEntry where
  level : LogLevel
  msg : String
deriving DecidableEq, Repr

/-- a node of the audio graph, for recording `connect` calls. -/
inductive NodeRef where
  | source (e : ElemId)
  | analyserMain
  | analyserLeft
  | analyserRight
  | splitterNode
  | destination
deriving DecidableEq, Repr

/-- one `connect` call performed on the host runtime: source node, target
node, and the optional output-port index (used for the splitter). -/
structure Connection where
  src : NodeRef
  dst : NodeRef
  outputPort : Option Nat
deriving DecidableEq, Repr

/-- host environment: whether `window` exists, whether it exposes an
AudioContext constructor, the state a freshly constructed context reports,
and the spectra the runtime writes on `getByteFrequencyData` for each of the
three analysers (bin index to magnitude; clamped to a byte on write). -/
structure Env where
  hasWindow : Bool
  hasAudioCtor : Bool
  ctxInitialState : CtxState
  mainBins : Nat → Nat
  leftBins : Nat → Nat
  rightBins : Nat → Nat

/-- the module state: every module-level binding of `audioStore.ts`, the
nanostores `isAudioContextReady` atom, the observable state of the DOM
elements, and instrumentation of side effects on the host runtime. -/
structure AudioState where
  audioContext : Option CtxState
  analyser : Option Analyser
  analyserL : Option Analyser
  analyserR : Option Analyser
  splitter : Option Nat
  dataArray : Option (List Nat)
  dataArrayL : Option (List Nat)
  dataArrayR : Option (List Nat)
  connectedElements : List ElemId
  isAudioContextReady : Bool
  elements : List (ElemId × MediaElement)
  contextsCreated : Nat
  analysersCreated : Nat
  splittersCreated : Nat
  sourcesCreated : Nat
  connections : List Connection
  resumeRequests : Nat
  log : List LogEntry
deriving DecidableEq, Repr

/-- look up a media element by identity. -/
def lookupElem : List (ElemId × MediaElement) → ElemId → Option MediaElement
  | [], _ => none
  | p :: rest, i => if p.1 = i then some p.2 else lookupElem rest i

/-- overwrite the state of the media element with the given identity. -/
def storeElem : List (ElemId × MediaElement) → ElemId → MediaElement →
    List (ElemId × MediaElement)
  | [], _, _ => []
  | p :: rest, i, m =>
      if p.1 = i then (i, m) :: storeElem rest i m else p :: storeElem rest i m

/-- the `console.error` line of `initAudioContext`. -/
def unsupportedMsg : String := "Web Audio API is not supported in this browser"

/-- the `console.log` line of the first successful `initAudioContext`. -/
def initLogMsg : String := "AudioContext initialized (Stereo Mode)"

/-- the `console.warn` line of the `catch` block of `connectAudioElement`. -/
def warnConnectMsg : String := "Error connecting audio element:"

/-- the `console.log` line of a successful `connectAudioElement`. -/
def okConnectMsg : String := "Audio element connected (Stereo)"

/-- the analyser configuration performed in `initAudioContext`:
`fftSize = 512`, `smoothingTimeConstant = 0.8`. -/
def mkAnalyser : Analyser := { fftSize := 512, smoothingTimeConstant := 4 / 5 }

/-- the body of the `if (!audioContext)` block of `initAudioContext` once an
AudioContext constructor is available: constructs the context, the three
analysers with their zero-filled snapshot buffers (`new Uint8Array(n)` is
zero-filled), the two-output splitter, wires splitter output 0 to the left
analyser and output 1 to the right analyser, flips the ready flag and logs. -/
def buildGraph (env : Env) (s : AudioState) : Option CtxState × AudioState :=
  let a := mkAnalyser
  (some env.ctxInitialState,
   { s with
     audioContext := some env.ctxInitialState
     analyser := some a
     dataArray := some (List.replicate a.frequencyBinCount 0)
     analyserL := some a
     dataArrayL := some (List.replicate a.frequencyBinCount 0)
     analyserR := some a
     dataArrayR := some (List.replicate a.frequencyBinCount 0)
     splitter := some 2
     connections := s.connections ++
       [⟨NodeRef.splitterNode, NodeRef.analyserLeft, some 0⟩,
        ⟨NodeRef.splitterNode, NodeRef.analyserRight, some 1⟩]
     isAudioContextReady := true
     contextsCreated := s.contextsCreated + 1
     analysersCreated := s.analysersCreated + 3
     splittersCreated := s.splittersCreated + 1
     log := s.log ++ [⟨LogLevel.info, initLogMsg⟩] })

/-- `initAudioContext()`: returns null when `window` is undefined; when no
context exists yet, either logs an error and returns null (no AudioContext
constructor) or builds the whole graph; otherwise returns the existing
context unchanged. -/
def initAudioContext (env : Env) (s : AudioState) : Option CtxState × AudioState :=
  if env.hasWindow = false then (none, s)
  else
    match s.audioContext with
    | some c => (some c, s)
    | none =>
        if env.hasAudioCtor = false then
          (none, { s with log := s.log ++ [⟨LogLevel.error, unsupportedMsg⟩] })
        else buildGraph env s

/-- the JavaScript truthiness test `!element.crossOrigin`: true when the
attribute is null or the empty string. -/
def crossOriginFalsy : Option String → Bool
  | none => true
  | some str => str = ""

/-- the statement `if (!element.crossOrigin) element.crossOrigin = "anonymous"`
applied to the state of the element. -/
def applyCrossOriginDefault (el : MediaElement) : MediaElement :=
  if crossOriginFalsy el.crossOrigin then
    { el with crossOrigin := some "anonymous" } else el

/-- the `try` block of `connectAudioElement` for a not-yet-registered
element `e` in state `el`: first the `crossOrigin` default is written to the
element, then `createMediaElementSource` either throws (element already has
a source: the `catch` logs a warning and nothing else happens) or succeeds,
after which the source is connected to the main analyser and the splitter,
the main analyser is connected to the destination, the element is added to
the registry, a success line is logged, and the `onplay` property of the
element is overwritten with the resume closure. -/
def wireElement (e : ElemId) (el : MediaElement) (s : AudioState) : AudioState :=
  let el1 := applyCrossOriginDefault el
  let s2 := { s with elements := storeElem s.elements e el1 }
  if el1.hasMediaSource then
    { s2 with log := s2.log ++ [⟨LogLevel.warn, warnConnectMsg⟩] }
  else
    { s2 with
      elements := storeElem s2.elements e
        { el1 with hasMediaSource := true, onplay := some (Handler.resumeOnPlay e) }
      sourcesCreated := s2.sourcesCreated + 1
      connections := s2.connections ++
        [⟨NodeRef.source e, NodeRef.analyserMain, none⟩,
         ⟨NodeRef.source e, NodeRef.splitterNode, none⟩,
         ⟨NodeRef.analyserMain, NodeRef.destination, none⟩]
      connectedElements := s2.connectedElements ++ [e]
      log := s2.log ++ [⟨LogLevel.info, okConnectMsg⟩] }

/-- `connectAudioElement(element)`: calls `initAudioContext`, returns if the
context, main analyser or splitter is missing, returns if the element is
already registered, and otherwise runs the wiring `try` block. -/
def connectAudioElement (env : Env) (e : ElemId) (s : AudioState) : AudioState :=
  let r := initAudioContext env s
  let s1 := r.2
  match r.1, s1.analyser, s1.splitter with
  | some _, some _, some _ =>
      if e ∈ s1.connectedElements then s1
      else
        match lookupElem s1.elements e with
        | some el => wireElement e el s1
        | none => s1
  | _, _, _ => s1

/-- the byte value the runtime writes for one bin (magnitudes are bytes). -/
def byteVal (f : Nat → Nat) (i : Nat) : Nat := min (f i) 255

/-- a fresh snapshot of length `n` taken from spectrum `f`. -/
def freshSnapshot (f : Nat → Nat) (n : Nat) : List Nat :=
  (List.range n).map (byteVal f)

/-- `getAudioData()`: returns an empty array when the analyser or the mono
buffer is missing; otherwise overwrites the mono buffer in place with the
current spectrum (`getByteFrequencyData`) and returns it. -/
def getAudioData (env : Env) (s : AudioState) : List Nat × AudioState :=
  match s.analyser, s.dataArray with
  | some _, some arr =>
      let newArr := freshSnapshot env.mainBins arr.length
      (newArr, { s with dataArray := some newArr })
  | _, _ => ([], s)

/-- the record `{left, right}` returned by `getStereoData`. -/
structure StereoData where
  left : ℚ
  right : ℚ
deriving DecidableEq, Repr

/-- `getStereoData()`: returns `{left: 0, right: 0}` when any of the two
stereo analysers or buffers is missing; otherwise refills both stereo
buffers from the runtime and returns the arithmetic mean of each. -/
def getStereoData (env : Env) (s : AudioState) : StereoData × AudioState :=
  match s.analyserL, s.analyserR, s.dataArrayL, s.dataArrayR with
  | some _, some _, some arrL, some arrR =>
      let newL := freshSnapshot env.leftBins arrL.length
      let newR := freshSnapshot env.rightBins arrR.length
      ({ left := (newL.sum : ℚ) / (newL.length : ℚ),
         right := (newR.sum : ℚ) / (newR.length : ℚ) },
       { s with dataArrayL := some newL, dataArrayR := some newR })
  | _, _, _, _ => ({ left := 0, right := 0 }, s)

/-- `getAverageVolume()`: takes the mono snapshot via `getAudioData`,
returns 0 when it is empty, and otherwise the sum of its bins divided by
its length. -/
def getAverageVolume (env : Env) (s : AudioState) : ℚ × AudioState :=
  let r := getAudioData env s
  if r.1.length = 0 then (0, r.2)
  else ((r.1.sum : ℚ) / (r.1.length : ℚ), r.2)

/-- `resumeAudioContext()`: requests resumption (fire-and-forget) exactly
when the context exists and reports state `suspended`. -/
def resumeAudioContext (s : AudioState) : AudioState :=
  match s.audioContext with
  | some CtxState.suspended => { s with resumeRequests := s.resumeRequests + 1 }
  | _ => s

/-- the module state at load time: every binding null, the registry empty,
the ready atom false, no side effects performed yet; the DOM elements are
whatever the page holds. -/
def initialState (elems : List (ElemId × MediaElement)) : AudioState :=
  { audioContext := none
    analyser := none
    analyserL := none
    analyserR := none
    splitter := none
    dataArray := none
    dataArrayL := none
    dataArrayR := none
    connectedElements := []
    isAudioContextReady := false
    elements := elems
    contextsCreated := 0
    analysersCreated := 0
    splittersCreated := 0
    sourcesCreated := 0
    connections := []
    resumeRequests := 0
    log := [] }

/-- iterated calls to `initAudioContext`, discarding return values. -/
def initIter (env : Env) : Nat → AudioState → AudioState
  | 0, s => s
  | n + 1, s => initIter env n (initAudioContext env s).2

/-- one call into the public surface of the module, for whole-lifetime
trace statements. -/
inductive Op where
  | init
  | connect (e : ElemId)
  | getAudio
  | getStereo
  | getAvg
  | resume
deriving DecidableEq, Repr

/-- the state transition of one public call. -/
def runOp (env : Env) (s : AudioState) : Op → AudioState
  | Op.init => (initAudioContext env s).2
  | Op.connect e => connectAudioElement env e s
  | Op.getAudio => (getAudioData env s).2
  | Op.getStereo => (getStereoData env s).2
  | Op.getAvg => (getAverageVolume env s).2
  | Op.resume => resumeAudioContext s

/-- a sequence of public calls. -/
def runOps (env : Env) (s : AudioState) : List Op → AudioState
  | [] => s
  | op :: rest => runOps env (runOp env s op) rest

/-- the buffer-length invariant: each of the three snapshot buffers exists
with length 256, and each analyser exists with `frequencyBinCount = 256`. -/
def buffersOk (s : AudioState) : Prop :=
  s.dataArray.map List.length = some 256 ∧
  s.dataArrayL.map List.length = some 256 ∧
  s.dataArrayR.map List.length = some 256 ∧
  s.analyser.map Analyser.frequencyBinCount = some 256 ∧
  s.analyserL.map Analyser.frequencyBinCount = some 256 ∧
  s.analyserR.map Analyser.frequencyBinCount = some 256

instance : DecidablePred buffersOk := fun s => by
  unfold buffersOk; infer_instance

/-- a fresh media element: no crossOrigin, no source, no onplay handler. -/
def elemFresh : MediaElement :=
  { crossOrigin := none, hasMediaSource := false, onplay := none }

/-- a media element that already has a MediaElementSource attached elsewhere
and no crossOrigin attribute: `createMediaElementSource` throws on it. -/
def elemWithSource : MediaElement :=
  { crossOrigin := none, hasMediaSource := true, onplay := none }

/-- a media element with an onplay handler installed by other code. -/
def elemWithHandler : MediaElement :=
  { crossOrigin := some "use-credentials", hasMediaSource := false,
    onplay := some (Handler.external 7) }

/-- a browser-like environment: window and AudioContext constructor present,
fresh contexts start suspended, silent spectra. -/
def envW : Env :=
  { hasWindow := true, hasAudioCtor := true, ctxInitialState := CtxState.suspended,
    mainBins := fun _ => 0, leftBins := fun _ => 0, rightBins := fun _ => 0 }

/-- helper: with `window` present and a context already built,
`initAudioContext` returns the existing context and changes nothing. -/
theorem initAudioContext_existing (env : Env) (s : AudioState) (c : CtxState)
    (hw : env.hasWindow = true) (h : s.audioContext = some c) :
    initAudioContext env s = (some c, s) := by
  simp [initAudioContext, hw, h]

/-- helper: iterating `initAudioContext` on a state that already holds a
context changes nothing. -/
theorem initIter_stable (env : Env) (s : AudioState) (c : CtxState)
    (hw : env.hasWindow = true) (h : s.audioContext = some c) (n : Nat) :
    initIter env n s = s := by
  induction n with
  | zero => rfl
  | succ k ih =>
      show initIter env k (initAudioContext env s).2 = s
      rw [initAudioContext_existing env s c hw h]
      exact ih

/-- helper: storing overwrites what lookup finds. -/
theorem lookupElem_storeElem (es : List (ElemId × MediaElement)) (i : ElemId)
    (m el : MediaElement) (h : lookupElem es i = some el) :
    lookupElem (storeElem es i m) i = some m := by
  induction es with
  | nil => simp [lookupElem] at h
  | cons p rest ih =>
      by_cases hp : p.1 = i
      · simp [storeElem, lookupElem, hp]
      · simp only [storeElem, lookupElem, hp, if_false] at h ⊢
        exact ih h

/-- helper: a fresh snapshot has the requested length. -/
theorem freshSnapshot_length (f : Nat → Nat) (n : Nat) :
    (freshSnapshot f n).length = n := by
  simp [freshSnapshot]

/-- helper: a fresh snapshot of a constant spectrum is constant. -/
theorem freshSnapshot_const (f : Nat → Nat) (c n : Nat) (hf : ∀ i, f i = c) :
    freshSnapshot f n = List.replicate n (min c 255) := by
  unfold freshSnapshot byteVal
  have hfun : (fun i => min (f i) 255) = fun _ : Nat => min c 255 := by
    funext i; rw [hf]
  rw [hfun]
  simp

/-- C6: if the graph was never initialized (in particular in the load-time
state, and in any state where the main analyser or the mono buffer is still
null), `getAudioData` returns a zero-length byte sequence and never fails. -/
theorem getAudioData_uninitialized (env : Env)
    (elems : List (ElemId × MediaElement)) :
    getAudioData env (initialState elems) = ([], initialState elems) ∧
    (∀ s : AudioState, s.analyser = none → getAudioData env s = ([], s)) ∧
    (∀ s : AudioState, s.dataArray = none → getAudioData env s = ([], s)) := by
  refine ⟨rfl, ?_, ?_⟩
  · intro s h
    unfold getAudioData
    rw [h]
  · intro s h
    unfold getAudioData
    rw [h]
    cases s.analyser <;> rfl

theorem getAudioData_uninitialized_witness :
    getAudioData envW (initialState []) = ([], initialState []) :=
  (getAudioData_uninitialized envW []).2.1 (initialState []) rfl

/-- C8: `resumeAudioContext` issues a resumption request exactly when the
context exists and reports state suspended (then the request counter grows
by one and nothing else changes); in every other case - state running, or
context never created - it is a no-op. -/
theorem resumeAudioContext_iff_suspended (s : AudioState) :
    ((resumeAudioContext s).resumeRequests = s.resumeRequests + 1 ↔
      s.audioContext = some CtxState.suspended) ∧
    (s.audioContext = some CtxState.suspended →
      resumeAudioContext s = { s with resumeRequests := s.resumeRequests + 1 }) ∧
    (s.audioContext ≠ some CtxState.suspended → resumeAudioContext s = s) := by
  have hno : s.audioContext ≠ some CtxState.suspended → resumeAudioContext s = s := by
    intro h
    unfold resumeAudioContext
    cases hc : s.audioContext with
    | none => rfl
    | some c =>
        cases c with
        | running => rfl
        | suspended => exact absurd hc h
  have hyes : s.audioContext = some CtxState.suspended →
      resumeAudioContext s = { s with resumeRequests := s.resumeRequests + 1 } := by
    intro h
    unfold resumeAudioContext
    rw [h]
  refine ⟨⟨?_, ?_⟩, hyes, hno⟩
  · intro hreq
    by_contra h
    rw [hno h] at hreq
    exact Nat.succ_ne_self s.resumeRequests hreq.symm
  · intro h
    rw [hyes h]

theorem resumeAudioContext_iff_suspended_witness :
    (resumeAudioContext (initialState [])).resumeRequests =
      (initialState []).resumeRequests ∧
    resumeAudioContext (initialState []) = initialState [] :=
  ⟨by rw [(resumeAudioContext_iff_suspended (initialState [])).2.2 (by decide)],
   (resumeAudioContext_iff_suspended (initialState [])).2.2 (by decide)⟩

/-- C9: `initAudioContext` in a hostile environment never raises: with no
`window` it returns null with no side effects at all; with `window` but no
AudioContext constructor it logs one error and returns null, with no context
or nodes constructed and all other state unchanged. -/
theorem initAudioContext_missing_env (env : Env) (s : AudioState) :
    (env.hasWindow = false → initAudioContext env s = (none, s)) ∧
    (env.hasWindow = true → env.hasAudioCtor = false → s.audioContext = none →
      initAudioContext env s =
        (none, { s with log := s.log ++ [⟨LogLevel.error, unsupportedMsg⟩] })) := by
  constructor
  · intro h
    simp [initAudioContext, h]
  · intro hw hc hctx
    simp [initAudioContext, hw, hctx, hc]

theorem initAudioContext_missing_env_witness :
    (initAudioContext { envW with hasWindow := false } (initialState []) =
      (none, initialState [])) ∧
    (initAudioContext { envW with hasAudioCtor := false } (initialState []) =
      (none, { initialState [] with
        log := (initialState []).log ++ [⟨LogLevel.error, unsupportedMsg⟩] })) :=
  ⟨(initAudioContext_missing_env { envW with hasWindow := false }
      (initialState [])).1 rfl,
   (initAudioContext_missing_env { envW with hasAudioCtor := false }
      (initialState [])).2 rfl rfl rfl⟩

/-- helper: one successful first build from the load-time state. -/
theorem initAudioContext_first (env : Env)
    (elems : List (ElemId × MediaElement))
    (hw : env.hasWindow = true) (hc : env.hasAudioCtor = true) :
    initAudioContext env (initialState elems) =
      buildGraph env (initialState elems) := by
  simp [initAudioContext, hw, hc, initialState]

/-- C2: graph initialization is idempotent: from the load-time state, with
an audio runtime present, N calls (N at least 1) leave the state of one
single call; exactly one context, one splitter and three analysers have
been constructed; the ready flag, false at load time, is true after the
first call; and any call made on a state that already holds a context
returns that context with the state unchanged (no rebuild). -/
theorem initAudioContext_idempotent (env : Env)
    (elems : List (ElemId × MediaElement)) (n : Nat)
    (hn : 1 ≤ n) (hw : env.hasWindow = true) (hc : env.hasAudioCtor = true) :
    initIter env n (initialState elems) =
      (initAudioContext env (initialState elems)).2 ∧
    (initIter env n (initialState elems)).contextsCreated = 1 ∧
    (initIter env n (initialState elems)).splittersCreated = 1 ∧
    (initIter env n (initialState elems)).analysersCreated = 3 ∧
    (initIter env n (initialState elems)).isAudioContextReady = true ∧
    (initialState elems).isAudioContextReady = false ∧
    (∀ s : AudioState, ∀ c : CtxState, s.audioContext = some c →
      initAudioContext env s = (some c, s)) := by
  have hfirst := initAudioContext_first env elems hw hc
  have hs1ctx : (initAudioContext env (initialState elems)).2.audioContext =
      some env.ctxInitialState := by
    rw [hfirst]; rfl
  obtain ⟨m, rfl⟩ : ∃ m, n = m + 1 := ⟨n - 1, (Nat.succ_pred_eq_of_pos hn).symm⟩
  have hiter : initIter env (m + 1) (initialState elems) =
      (initAudioContext env (initialState elems)).2 := by
    show initIter env m (initAudioContext env (initialState elems)).2 = _
    exact initIter_stable env _ env.ctxInitialState hw hs1ctx m
  refine ⟨hiter, ?_, ?_, ?_, ?_, rfl, ?_⟩
  · rw [hiter, hfirst]; rfl
  · rw [hiter, hfirst]; rfl
  · rw [hiter, hfirst]; rfl
  · rw [hiter, hfirst]; rfl
  · intro s c h
    exact initAudioContext_existing env s c hw h

theorem initAudioContext_idempotent_witness :
    initIter envW 3 (initialState []) =
      (initAudioContext envW (initialState [])).2 ∧
    (initIter envW 3 (initialState [])).contextsCreated = 1 ∧
    (initIter envW 3 (initialState [])).splittersCreated = 1 ∧
    (initIter envW 3 (initialState [])).analysersCreated = 3 ∧
    (initIter envW 3 (initialState [])).isAudioContextReady = true ∧
    (initialState ([] : List (ElemId × MediaElement))).isAudioContextReady = false ∧
    (∀ s : AudioState, ∀ c : CtxState, s.audioContext = some c →
      initAudioContext envW s = (some c, s)) :=
  initAudioContext_idempotent envW [] 3 (by decide) rfl rfl

/-- C3: element connection is idempotent: when the graph is up and the
element is already in the connected-elements registry, `connectAudioElement`
returns the state unchanged - no new source, no new node connections, no new
registry entry, no new log line. -/
theorem connectAudioElement_idempotent (env : Env) (e : ElemId)
    (s : AudioState) (c : CtxState) (a : Analyser) (sp : Nat)
    (hw : env.hasWindow = true) (hctx : s.audioContext = some c)
    (ha : s.analyser = some a) (hsp : s.splitter = some sp)
    (hmem : e ∈ s.connectedElements) :
    connectAudioElement env e s = s := by
  unfold connectAudioElement
  rw [initAudioContext_existing env s c hw hctx]
  simp [ha, hsp, hmem]

theorem connectAudioElement_idempotent_witness :
    connectAudioElement envW 0
      (connectAudioElement envW 0 (initialState [(0, elemFresh)])) =
    connectAudioElement envW 0 (initialState [(0, elemFresh)]) :=
  connectAudioElement_idempotent envW 0
    (connectAudioElement envW 0 (initialState [(0, elemFresh)]))
    CtxState.suspended mkAnalyser 2 rfl (by decide) rfl (by decide)
    (by decide)

/-- helper: when the graph is up and the element is present but not yet
registered, `connectAudioElement` runs the wiring block on it. -/
theorem connectAudioElement_wires (env : Env) (e : ElemId) (s : AudioState)
    (c : CtxState) (a : Analyser) (sp : Nat) (el : MediaElement)
    (hw : env.hasWindow = true) (hctx : s.audioContext = some c)
    (ha : s.analyser = some a) (hsp : s.splitter = some sp)
    (hmem : e ∉ s.connectedElements)
    (hel : lookupElem s.elements e = some el) :
    connectAudioElement env e s = wireElement e el s := by
  unfold connectAudioElement
  rw [initAudioContext_existing env s c hw hctx]
  simp [ha, hsp, hmem, hel]

/-- helper: the wiring block on an element that already has a media source
logs one warning; the only other change is the crossOrigin default already
written to the element before the throwing call. -/
theorem wireElement_failure (e : ElemId) (el : MediaElement) (s : AudioState)
    (hsrc : el.hasMediaSource = true) :
    wireElement e el s =
      { s with
        elements := storeElem s.elements e (applyCrossOriginDefault el)
        log := s.log ++ [⟨LogLevel.warn, warnConnectMsg⟩] } := by
  have h1 : (applyCrossOriginDefault el).hasMediaSource = true := by
    unfold applyCrossOriginDefault
    by_cases hco : crossOriginFalsy el.crossOrigin <;> simp [hco, hsrc]
  unfold wireElement
  simp [h1]

/-- helper: the wiring block on an element with no media source yet creates
one source, performs the three node connections, registers the element, logs
one success line and overwrites the onplay property of the element. -/
theorem wireElement_success (e : ElemId) (el : MediaElement) (s : AudioState)
    (hsrc : el.hasMediaSource = false) :
    wireElement e el s =
      { s with
        elements := storeElem (storeElem s.elements e (applyCrossOriginDefault el)) e
          { applyCrossOriginDefault el with
            hasMediaSource := true, onplay := some (Handler.resumeOnPlay e) }
        sourcesCreated := s.sourcesCreated + 1
        connections := s.connections ++
          [⟨NodeRef.source e, NodeRef.analyserMain, none⟩,
           ⟨NodeRef.source e, NodeRef.splitterNode, none⟩,
           ⟨NodeRef.analyserMain, NodeRef.destination, none⟩]
        connectedElements := s.connectedElements ++ [e]
        log := s.log ++ [⟨LogLevel.info, okConnectMsg⟩] } := by
  have h1 : (applyCrossOriginDefault el).hasMediaSource = false := by
    unfold applyCrossOriginDefault
    by_cases hco : crossOriginFalsy el.crossOrigin <;> simp [hco, hsrc]
  unfold wireElement
  simp [h1]

/-- C1 counterexample: wiring failure is not a complete no-op on all state:
on an element that already has a media source and no crossOrigin attribute,
the failed `connectAudioElement` leaves the element with
`crossOrigin = "anonymous"`, because the attribute is written inside the
`try` block before the throwing `createMediaElementSource` call and is not
rolled back by the `catch`. -/
theorem connectAudioElement_failure_not_noop :
    lookupElem
      ((initAudioContext envW (initialState [(0, elemWithSource)])).2).elements 0 =
      some elemWithSource ∧
    elemWithSource.crossOrigin = none ∧
    lookupElem (connectAudioElement envW 0
      (initAudioContext envW (initialState [(0, elemWithSource)])).2).elements 0 =
      some { crossOrigin := some "anonymous", hasMediaSource := true,
             onplay := none } ∧
    (connectAudioElement envW 0
        (initAudioContext envW (initialState [(0, elemWithSource)])).2).elements ≠
      ((initAudioContext envW (initialState [(0, elemWithSource)])).2).elements := by
  decide

/-- C1 (amended): when any step of wiring fails (the element already has a
media source), the failure is caught and one warning is logged; the
registry, the node connections, the created sources and all other module
state are unchanged, so the operation is a no-op on the module state - but
the crossOrigin default, written to the element before the failing call,
persists on the element. -/
theorem connectAudioElement_failure_amended (env : Env) (e : ElemId)
    (s : AudioState) (c : CtxState) (a : Analyser) (sp : Nat)
    (el : MediaElement)
    (hw : env.hasWindow = true) (hctx : s.audioContext = some c)
    (ha : s.analyser = some a) (hsp : s.splitter = some sp)
    (hmem : e ∉ s.connectedElements)
    (hel : lookupElem s.elements e = some el)
    (hsrc : el.hasMediaSource = true) :
    connectAudioElement env e s =
      { s with
        elements := storeElem s.elements e (applyCrossOriginDefault el)
        log := s.log ++ [⟨LogLevel.warn, warnConnectMsg⟩] } := by
  rw [connectAudioElement_wires env e s c a sp el hw hctx ha hsp hmem hel]
  exact wireElement_failure e el s hsrc

theorem connectAudioElement_failure_amended_witness :
    connectAudioElement envW 0
      (initAudioContext envW (initialState [(0, elemWithSource)])).2 =
      { (initAudioContext envW (initialState [(0, elemWithSource)])).2 with
        elements := storeElem
          ((initAudioContext envW (initialState [(0, elemWithSource)])).2).elements
          0 (applyCrossOriginDefault elemWithSource)
        log := ((initAudioContext envW
          (initialState [(0, elemWithSource)])).2).log ++
          [⟨LogLevel.warn, warnConnectMsg⟩] } :=
  connectAudioElement_failure_amended envW 0
    (initAudioContext envW (initialState [(0, elemWithSource)])).2
    CtxState.suspended mkAnalyser 2 elemWithSource
    rfl (by decide) rfl (by decide) (by decide) (by decide) rfl

/-- C10: on a successful first-time connection the module installs its
playback-start observer by direct assignment to the onplay property: the
element ends with exactly the resume closure as its handler, whatever
handler was installed before; any externally installed handler is a
different handler, hence replaced, not composed with. -/
theorem connectAudioElement_overwrites_onplay (env : Env) (e : ElemId)
    (s : AudioState) (c : CtxState) (a : Analyser) (sp : Nat)
    (el : MediaElement)
    (hw : env.hasWindow = true) (hctx : s.audioContext = some c)
    (ha : s.analyser = some a) (hsp : s.splitter = some sp)
    (hmem : e ∉ s.connectedElements)
    (hel : lookupElem s.elements e = some el)
    (hsrc : el.hasMediaSource = false) :
    lookupElem (connectAudioElement env e s).elements e =
      some { applyCrossOriginDefault el with
             hasMediaSource := true,
             onplay := some (Handler.resumeOnPlay e) } ∧
    (∀ n : Nat, Handler.external n ≠ Handler.resumeOnPlay e) := by
  constructor
  · rw [connectAudioElement_wires env e s c a sp el hw hctx ha hsp hmem hel,
        wireElement_success e el s hsrc]
    have h1 := lookupElem_storeElem s.elements e (applyCrossOriginDefault el) el hel
    exact lookupElem_storeElem _ e _ _ h1
  · intro n h
    exact Handler.noConfusion h

theorem connectAudioElement_overwrites_onplay_witness :
    lookupElem (connectAudioElement envW 0
      (initAudioContext envW (initialState [(0, elemWithHandler)])).2).elements 0 =
      some { applyCrossOriginDefault elemWithHandler with
             hasMediaSource := true,
             onplay := some (Handler.resumeOnPlay 0) } ∧
    elemWithHandler.onplay = some (Handler.external 7) ∧
    (∀ n : Nat, Handler.external n ≠ Handler.resumeOnPlay 0) :=
  ⟨(connectAudioElement_overwrites_onplay envW 0
      (initAudioContext envW (initialState [(0, elemWithHandler)])).2
      CtxState.suspended mkAnalyser 2 elemWithHandler
      rfl (by decide) rfl (by decide) (by decide) (by decide) rfl).1,
   rfl,
   (connectAudioElement_overwrites_onplay envW 0
      (initAudioContext envW (initialState [(0, elemWithHandler)])).2
      CtxState.suspended mkAnalyser 2 elemWithHandler
      rfl (by decide) rfl (by decide) (by decide) (by decide) rfl).2⟩

/-- helper: when the graph is up, `getAudioData` returns the refreshed mono
snapshot. -/
theorem getAudioData_initialized (env : Env) (s : AudioState) (a : Analyser)
    (arr : List Nat) (ha : s.analyser = some a) (hd : s.dataArray = some arr) :
    getAudioData env s =
      (freshSnapshot env.mainBins arr.length,
       { s with dataArray := some (freshSnapshot env.mainBins arr.length) }) := by
  unfold getAudioData
  rw [ha, hd]

/-- helper: the scalar returned by `getAverageVolume` as a function of the
snapshot `getAudioData` returns. -/
theorem getAverageVolume_fst (env : Env) (s : AudioState) :
    (getAverageVolume env s).1 =
      if (getAudioData env s).1.length = 0 then 0
      else ((getAudioData env s).1.sum : ℚ) / ((getAudioData env s).1.length : ℚ) := by
  unfold getAverageVolume
  by_cases h : (getAudioData env s).1.length = 0 <;> simp [h]

/-- C4: `getAverageVolume` returns exactly the arithmetic mean (sum of bins
divided by bin count) of the snapshot `getAudioData` returns, and 0 when
that snapshot is empty; on an initialized graph with all-zero bins it
returns 0 and with all bins at 255 it returns 255. -/
theorem getAverageVolume_mean (env : Env) (s : AudioState) :
    ((getAudioData env s).1.length = 0 → (getAverageVolume env s).1 = 0) ∧
    ((getAudioData env s).1.length ≠ 0 →
      (getAverageVolume env s).1 =
        ((getAudioData env s).1.sum : ℚ) / ((getAudioData env s).1.length : ℚ)) ∧
    (∀ a : Analyser, ∀ arr : List Nat,
      s.analyser = some a → s.dataArray = some arr → arr.length = 256 →
      ((∀ i, env.mainBins i = 0) → (getAverageVolume env s).1 = 0) ∧
      ((∀ i, env.mainBins i = 255) → (getAverageVolume env s).1 = 255)) := by
  refine ⟨?_, ?_, ?_⟩
  · intro h
    rw [getAverageVolume_fst, if_pos h]
  · intro h
    rw [getAverageVolume_fst, if_neg h]
  · intro a arr ha hd hlen
    have hsnap : (getAudioData env s).1 = freshSnapshot env.mainBins arr.length := by
      rw [getAudioData_initialized env s a arr ha hd]
    constructor
    · intro hf
      rw [getAverageVolume_fst, hsnap, hlen,
        freshSnapshot_const env.mainBins 0 256 hf,
        List.length_replicate, List.sum_replicate]
      norm_num
    · intro hf
      rw [getAverageVolume_fst, hsnap, hlen,
        freshSnapshot_const env.mainBins 255 256 hf,
        List.length_replicate, List.sum_replicate]
      norm_num

theorem getAverageVolume_mean_witness :
    (getAverageVolume { envW with mainBins := fun _ => 255 }
      (initAudioContext { envW with mainBins := fun _ => 255 }
        (initialState [])).2).1 = 255 :=
  ((getAverageVolume_mean { envW with mainBins := fun _ => 255 }
      (initAudioContext { envW with mainBins := fun _ => 255 }
        (initialState [])).2).2.2
    mkAnalyser (List.replicate 256 0) rfl rfl (by
      rw [List.length_replicate])).2 (fun _ => rfl)

/-- C5: `getStereoData` computes the exact arithmetic mean of the
frequency-bin magnitudes of each of the two stereo channels (sum of bins
divided by bin count) and returns both in one record; with constant spectra
it returns exactly those constants; if the graph was never initialized - in
particular in the load-time state, or whenever the left analyser is still
null - it returns exactly left 0, right 0 with the state unchanged. -/
theorem getStereoData_means (env : Env) (s : AudioState)
    (elems : List (ElemId × MediaElement)) :
    getStereoData env (initialState elems) =
      ({ left := 0, right := 0 }, initialState elems) ∧
    (s.analyserL = none → getStereoData env s = ({ left := 0, right := 0 }, s)) ∧
    (∀ aL aR : Analyser, ∀ arrL arrR : List Nat,
      s.analyserL = some aL → s.analyserR = some aR →
      s.dataArrayL = some arrL → s.dataArrayR = some arrR →
      getStereoData env s =
        ({ left := ((freshSnapshot env.leftBins arrL.length).sum : ℚ) /
             ((freshSnapshot env.leftBins arrL.length).length : ℚ),
           right := ((freshSnapshot env.rightBins arrR.length).sum : ℚ) /
             ((freshSnapshot env.rightBins arrR.length).length : ℚ) },
         { s with dataArrayL := some (freshSnapshot env.leftBins arrL.length),
                  dataArrayR := some (freshSnapshot env.rightBins arrR.length) }) ∧
      (∀ cL cR : Nat, arrL.length = 256 → arrR.length = 256 →
        (∀ i, env.leftBins i = cL) → (∀ i, env.rightBins i = cR) →
        cL ≤ 255 → cR ≤ 255 →
        (getStereoData env s).1 = { left := (cL : ℚ), right := (cR : ℚ) })) := by
  refine ⟨rfl, ?_, ?_⟩
  · intro h
    unfold getStereoData
    rw [h]
  · intro aL aR arrL arrR haL haR hdL hdR
    have hmain : getStereoData env s =
        ({ left := ((freshSnapshot env.leftBins arrL.length).sum : ℚ) /
             ((freshSnapshot env.leftBins arrL.length).length : ℚ),
           right := ((freshSnapshot env.rightBins arrR.length).sum : ℚ) /
             ((freshSnapshot env.rightBins arrR.length).length : ℚ) },
         { s with dataArrayL := some (freshSnapshot env.leftBins arrL.length),
                  dataArrayR := some (freshSnapshot env.rightBins arrR.length) }) := by
      unfold getStereoData
      rw [haL, haR, hdL, hdR]
    refine ⟨hmain, ?_⟩
    intro cL cR hlenL hlenR hfL hfR hcL hcR
    rw [hmain]
    have hminL : min cL 255 = cL := min_eq_left hcL
    have hminR : min cR 255 = cR := min_eq_left hcR
    dsimp only
    rw [StereoData.mk.injEq]
    constructor
    · rw [hlenL, freshSnapshot_const env.leftBins cL 256 hfL, hminL,
        List.length_replicate, List.sum_replicate]
      push_cast [smul_eq_mul]
      field_simp
    · rw [hlenR, freshSnapshot_const env.rightBins cR 256 hfR, hminR,
        List.length_replicate, List.sum_replicate]
      push_cast [smul_eq_mul]
      field_simp

theorem getStereoData_means_witness :
    (getStereoData
      { envW with leftBins := fun _ => 10, rightBins := fun _ => 200 }
      (initAudioContext
        { envW with leftBins := fun _ => 10, rightBins := fun _ => 200 }
        (initialState [])).2).1 = { left := (10 : ℚ), right := (200 : ℚ) } :=
  ((getStereoData_means
      { envW with leftBins := fun _ => 10, rightBins := fun _ => 200 }
      (initAudioContext
        { envW with leftBins := fun _ => 10, rightBins := fun _ => 200 }
        (initialState [])).2 []).2.2
    mkAnalyser mkAnalyser (List.replicate 256 0) (List.replicate 256 0)
    rfl rfl rfl rfl).2 10 200
    (by rw [List.length_replicate]) (by rw [List.length_replicate])
    (fun _ => rfl) (fun _ => rfl) (by norm_num) (by norm_num)

/-- helper: without `window`, `initAudioContext` is the null no-op. -/
theorem initAudioContext_noWindow (env : Env) (s : AudioState)
    (hw : env.hasWindow = false) : initAudioContext env s = (none, s) := by
  simp [initAudioContext, hw]

/-- helper: with `window` but no constructor, `initAudioContext` only logs. -/
theorem initAudioContext_noCtor (env : Env) (s : AudioState)
    (hw : env.hasWindow = true) (hc : env.hasAudioCtor = false)
    (hctx : s.audioContext = none) :
    initAudioContext env s =
      (none, { s with log := s.log ++ [⟨LogLevel.error, unsupportedMsg⟩] }) := by
  simp [initAudioContext, hw, hctx, hc]

/-- helper: with a runtime and no context yet, `initAudioContext` builds. -/
theorem initAudioContext_builds (env : Env) (s : AudioState)
    (hw : env.hasWindow = true) (hc : env.hasAudioCtor = true)
    (hctx : s.audioContext = none) :
    initAudioContext env s = buildGraph env s := by
  simp [initAudioContext, hw, hctx, hc]

/-- helper: a freshly built graph satisfies the buffer-length invariant. -/
theorem buffersOk_buildGraph (env : Env) (s : AudioState) :
    buffersOk (buildGraph env s).2 := by
  unfold buildGraph buffersOk
  dsimp only
  refine ⟨?_, ?_, ?_, ?_, ?_, ?_⟩
  · rw [Option.map_some', List.length_replicate]; rfl
  · rw [Option.map_some', List.length_replicate]; rfl
  · rw [Option.map_some', List.length_replicate]; rfl
  · rw [Option.map_some']; rfl
  · rw [Option.map_some']; rfl
  · rw [Option.map_some']; rfl

/-- helper: `initAudioContext` preserves the buffer-length invariant (and
establishes it when it builds the graph). -/
theorem buffersOk_initAudioContext (env : Env) (s : AudioState)
    (h : buffersOk s) : buffersOk (initAudioContext env s).2 := by
  by_cases hw : env.hasWindow = false
  · rw [initAudioContext_noWindow env s hw]
    exact h
  · have hw' : env.hasWindow = true := by simpa using hw
    cases hctx : s.audioContext with
    | some c =>
        rw [initAudioContext_existing env s c hw' hctx]
        exact h
    | none =>
        by_cases hc : env.hasAudioCtor = false
        · rw [initAudioContext_noCtor env s hw' hc hctx]
          unfold buffersOk at h ⊢
          simpa using h
        · have hc' : env.hasAudioCtor = true := by simpa using hc
          rw [initAudioContext_builds env s hw' hc' hctx]
          exact buffersOk_buildGraph env s

/-- helper: the wiring block never touches the analysers or the snapshot
buffers. -/
theorem wireElement_preserves_buffers (e : ElemId) (el : MediaElement)
    (s : AudioState) :
    (wireElement e el s).dataArray = s.dataArray ∧
    (wireElement e el s).dataArrayL = s.dataArrayL ∧
    (wireElement e el s).dataArrayR = s.dataArrayR ∧
    (wireElement e el s).analyser = s.analyser ∧
    (wireElement e el s).analyserL = s.analyserL ∧
    (wireElement e el s).analyserR = s.analyserR := by
  by_cases hsrc : el.hasMediaSource = true
  · rw [wireElement_failure e el s hsrc]
    exact ⟨rfl, rfl, rfl, rfl, rfl, rfl⟩
  · rw [wireElement_success e el s (Bool.not_eq_true _ ▸ hsrc)]
    exact ⟨rfl, rfl, rfl, rfl, rfl, rfl⟩

/-- helper: `connectAudioElement` preserves the buffer-length invariant. -/
theorem buffersOk_connectAudioElement (env : Env) (e : ElemId)
    (s : AudioState) (h : buffersOk s) :
    buffersOk (connectAudioElement env e s) := by
  have h1 : buffersOk (initAudioContext env s).2 :=
    buffersOk_initAudioContext env s h
  unfold connectAudioElement
  rcases hinit : initAudioContext env s with ⟨r1, s1⟩
  rw [hinit] at h1
  simp only [hinit]
  cases r1 with
  | none => exact h1
  | some c =>
      cases ha : s1.analyser with
      | none => exact h1
      | some a =>
          cases hsp : s1.splitter with
          | none => exact h1
          | some sp =>
              dsimp only
              by_cases hmem : e ∈ s1.connectedElements
              · rw [if_pos hmem]; exact h1
              · rw [if_neg hmem]
                cases hel : lookupElem s1.elements e with
                | none => exact h1
                | some el =>
                    dsimp only
                    have hp := wireElement_preserves_buffers e el s1
                    unfold buffersOk
                    rw [hp.1, hp.2.1, hp.2.2.1, hp.2.2.2.1, hp.2.2.2.2.1,
                      hp.2.2.2.2.2]
                    exact h1

/-- helper: `getAudioData` preserves the buffer-length invariant. -/
theorem buffersOk_getAudioData (env : Env) (s : AudioState)
    (h : buffersOk s) : buffersOk (getAudioData env s).2 := by
  unfold getAudioData
  cases ha : s.analyser with
  | none => simpa using h
  | some a =>
      cases hd : s.dataArray with
      | none => simpa using h
      | some arr =>
          have hlen : arr.length = 256 := by
            have := h.1
            rw [hd] at this
            exact Option.some.inj (by simpa using this)
          unfold buffersOk at h ⊢
          refine ⟨?_, ?_, ?_, ?_, ?_, ?_⟩
          · show Option.map List.length
              (some (freshSnapshot env.mainBins arr.length)) = some 256
            rw [Option.map_some', freshSnapshot_length, hlen]
          · simpa using h.2.1
          · simpa using h.2.2.1
          · simpa [ha] using h.2.2.2.1
          · simpa using h.2.2.2.2.1
          · simpa using h.2.2.2.2.2

/-- helper: `getStereoData` preserves the buffer-length invariant. -/
theorem buffersOk_getStereoData (env : Env) (s : AudioState)
    (h : buffersOk s) : buffersOk (getStereoData env s).2 := by
  unfold getStereoData
  cases haL : s.analyserL with
  | none => simpa using h
  | some aL =>
      cases haR : s.analyserR with
      | none => simpa using h
      | some aR =>
          cases hdL : s.dataArrayL with
          | none => simpa using h
          | some arrL =>
              cases hdR : s.dataArrayR with
              | none => simpa using h
              | some arrR =>
                  have hlenL : arrL.length = 256 := by
                    have := h.2.1
                    rw [hdL] at this
                    exact Option.some.inj (by simpa using this)
                  have hlenR : arrR.length = 256 := by
                    have := h.2.2.1
                    rw [hdR] at this
                    exact Option.some.inj (by simpa using this)
                  unfold buffersOk at h ⊢
                  refine ⟨?_, ?_, ?_, ?_, ?_, ?_⟩
                  · simpa using h.1
                  · show Option.map List.length
                      (some (freshSnapshot env.leftBins arrL.length)) = some 256
                    rw [Option.map_some', freshSnapshot_length, hlenL]
                  · show Option.map List.length
                      (some (freshSnapshot env.rightBins arrR.length)) = some 256
                    rw [Option.map_some', freshSnapshot_length, hlenR]
                  · simpa using h.2.2.2.1
                  · simpa [haL] using h.2.2.2.2.1
                  · simpa [haR] using h.2.2.2.2.2

/-- helper: `getAverageVolume` leaves the state `getAudioData` leaves. -/
theorem getAverageVolume_snd (env : Env) (s : AudioState) :
    (getAverageVolume env s).2 = (getAudioData env s).2 := by
  unfold getAverageVolume
  by_cases h : (getAudioData env s).1.length = 0 <;> simp [h]

/-- helper: `resumeAudioContext` preserves the buffer-length invariant. -/
theorem buffersOk_resumeAudioContext (s : AudioState) (h : buffersOk s) :
    buffersOk (resumeAudioContext s) := by
  unfold resumeAudioContext
  cases hc : s.audioContext with
  | none => exact h
  | some c =>
      cases c with
      | running => exact h
      | suspended => unfold buffersOk at h ⊢; simpa using h

/-- helper: every public call preserves the buffer-length invariant. -/
theorem buffersOk_runOp (env : Env) (s : AudioState) (op : Op)
    (h : buffersOk s) : buffersOk (runOp env s op) := by
  cases op with
  | init => exact buffersOk_initAudioContext env s h
  | connect e => exact buffersOk_connectAudioElement env e s h
  | getAudio => exact buffersOk_getAudioData env s h
  | getStereo => exact buffersOk_getStereoData env s h
  | getAvg =>
      show buffersOk (getAverageVolume env s).2
      rw [getAverageVolume_snd]
      exact buffersOk_getAudioData env s h
  | resume => exact buffersOk_resumeAudioContext s h

/-- helper: every trace of public calls preserves the invariant. -/
theorem buffersOk_runOps (env : Env) (ops : List Op) (s : AudioState)
    (h : buffersOk s) : buffersOk (runOps env s ops) := by
  induction ops generalizing s with
  | nil => exact h
  | cons op rest ih => exact ih (runOp env s op) (buffersOk_runOp env s op h)

/-- helper: under the invariant, `getAudioData` returns exactly 256 bins. -/
theorem getAudioData_length_of_buffersOk (env : Env) (s : AudioState)
    (h : buffersOk s) : (getAudioData env s).1.length = 256 := by
  have h1 := h.1
  have h4 := h.2.2.2.1
  cases ha : s.analyser with
  | none => rw [ha] at h4; simp at h4
  | some a =>
      cases hd : s.dataArray with
      | none => rw [hd] at h1; simp at h1
      | some arr =>
          have hlen : arr.length = 256 := by
            rw [hd] at h1
            exact Option.some.inj (by simpa using h1)
          rw [getAudioData_initialized env s a arr ha hd]
          show (freshSnapshot env.mainBins arr.length).length = 256
          rw [freshSnapshot_length, hlen]

/-- C7: buffer-length invariant: after a successful initialization each of
the three snapshot buffers exists with length equal to the bin count of its
analyser, which is window size 512 / 2 = 256; every trace of public calls
preserves this, and every `getAudioData` call on any reachable state returns
exactly 256 bins. -/
theorem bufferLength_invariant (env : Env)
    (elems : List (ElemId × MediaElement)) (ops : List Op)
    (hw : env.hasWindow = true) (hc : env.hasAudioCtor = true) :
    buffersOk (initAudioContext env (initialState elems)).2 ∧
    buffersOk (runOps env (initAudioContext env (initialState elems)).2 ops) ∧
    (getAudioData env
      (runOps env (initAudioContext env (initialState elems)).2 ops)).1.length
      = 256 ∧
    mkAnalyser.frequencyBinCount = 256 := by
  have h0 : buffersOk (initAudioContext env (initialState elems)).2 := by
    rw [initAudioContext_builds env (initialState elems) hw hc rfl]
    exact buffersOk_buildGraph env (initialState elems)
  have h1 : buffersOk
      (runOps env (initAudioContext env (initialState elems)).2 ops) :=
    buffersOk_runOps env ops _ h0
  exact ⟨h0, h1, getAudioData_length_of_buffersOk env _ h1, rfl⟩

theorem bufferLength_invariant_witness :
    buffersOk (initAudioContext envW (initialState [(0, elemFresh)])).2 ∧
    buffersOk (runOps envW
      (initAudioContext envW (initialState [(0, elemFresh)])).2
      [Op.connect 0, Op.getAudio, Op.getStereo, Op.getAvg, Op.resume,
       Op.init]) ∧
    (getAudioData envW (runOps envW
      (initAudioContext envW (initialState [(0, elemFresh)])).2
      [Op.connect 0, Op.getAudio, Op.getStereo, Op.getAvg, Op.resume,
       Op.init])).1.length = 256 ∧
    mkAnalyser.frequencyBinCount = 256 :=
  bufferLength_invariant envW [(0, elemFresh)]
    [Op.connect 0, Op.getAudio, Op.getStereo, Op.getAvg, Op.resume, Op.init]
    rfl rfl
